import Mathlib

/-!
Shallow embedding of the csv-splitter repository (src/app.py and
src/split_csv.py).

A file is modelled as its list of lines, written without their terminating
newline characters.  Python string operations on single lines map to the
corresponding `String` operations (`strip` to `pyStrip`, `'\n'.join` to
`String.intercalate "\n"`).  `pd.read_csv` is modelled at line granularity:
its default C engine skips only strictly empty lines, consumes the first
remaining line (whitespace-only or not) as its column header, and —
through `to_csv(index=False, header=False)` — hands the remaining lines
back unchanged (CSV field re-serialisation and column-count validation are
out of scope for the embedding, matching the design's stated non-goals: no
dialect parsing, no schema validation).  The `chunksize` handed to
`pd.read_csv` is `min(5000, chunk_size // 10)`; when that is 0 the call
raises `ValueError` and the enclosing handler returns `([], 0)`.
-/

namespace CSVSplitter

/-- Embedding of Python's `str.strip()` (no argument): drop whitespace from
both ends of the string.  Whitespace is modelled by `Char.isWhitespace`
(space, tab, carriage return, newline) — the ASCII core of what Python
strips, which covers every character class the splitter's claims involve. -/
def pyStrip (s : String) : String :=
  ⟨((s.data.dropWhile Char.isWhitespace).reverse.dropWhile
      Char.isWhitespace).reverse⟩

/-- A line is blank when it is empty after trimming surrounding whitespace,
mirroring the falsiness of `row.strip()` in Python. -/
def isBlank (s : String) : Bool := pyStrip s == ""

/-- Embedding of `count_csv_rows` (src/app.py lines 23-32): it counts every
line of the file, blank or not, and subtracts one for the header.  The result
is an `Int` because on an input with no lines the subtraction goes below
zero. -/
def count_csv_rows (lines : List String) : Int := (lines.length : Int) - 1

/-- One emitted output file: the dict built at src/app.py lines 81-85 and
112-116 has keys `content`, `filename` and `row_count`.  The extra field
`rows` records the value of `current_output_buffer` at the moment the chunk
was assembled; `content` is built from it exactly as the source does, so
`rows` is bookkeeping that lets theorems speak about individual rows. -/
structure OutputChunk where
  content : String
  filename : String
  row_count : Nat
  rows : List String
deriving DecidableEq

/-- The mutable state of the row loop in `split_csv_memory_efficient`
(src/app.py lines 54-58). -/
structure LoopState where
  output_chunks : List OutputChunk
  current_output_buffer : List String
  current_output_size : Nat
  rows_processed : Nat
  output_file_number : Nat
deriving DecidableEq

/-- The initial loop state (src/app.py lines 54-58). -/
def initState : LoopState :=
  { output_chunks := []
    current_output_buffer := []
    current_output_size := 0
    rows_processed := 0
    output_file_number := 1 }

/-- Chunk content as built at src/app.py lines 80 and 111:
`header + '\n' + '\n'.join(current_output_buffer)`. -/
def chunkContent (header : String) (buffer : List String) : String :=
  header ++ "\n" ++ String.intercalate "\n" buffer

/-- Output filename of the n-th chunk: `split_<n>.csv`
(src/app.py lines 83 and 114). -/
def chunkFilename (n : Nat) : String := "split_" ++ toString n ++ ".csv"

/-- One iteration of the inner row loop of `split_csv_memory_efficient`
(src/app.py lines 71-94): blank rows are skipped; a non-blank row is
appended to the buffer, the counters advance, and when the buffer size
reaches `chunk_size` a chunk is emitted and the buffer reset. -/
def stepRow (chunk_size : Nat) (header : String) (st : LoopState)
    (row : String) : LoopState :=
  if isBlank row then st
  else
    let buffer := st.current_output_buffer ++ [row]
    let size := st.current_output_size + 1
    if chunk_size ≤ size then
      { output_chunks := st.output_chunks ++
          [{ content := chunkContent header buffer
             filename := chunkFilename st.output_file_number
             row_count := size
             rows := buffer }]
        current_output_buffer := []
        current_output_size := 0
        rows_processed := st.rows_processed + 1
        output_file_number := st.output_file_number + 1 }
    else
      { st with
        current_output_buffer := buffer
        current_output_size := size
        rows_processed := st.rows_processed + 1 }

/-- Flushing of the remaining partial buffer after the loop
(src/app.py lines 109-116): when `current_output_buffer` is non-empty a
final chunk is appended, with `row_count = current_output_size`. -/
def flushRemainder (header : String) (st : LoopState) : List OutputChunk :=
  if st.current_output_buffer.isEmpty then st.output_chunks
  else st.output_chunks ++
    [{ content := chunkContent header st.current_output_buffer
       filename := chunkFilename st.output_file_number
       row_count := st.current_output_size
       rows := st.current_output_buffer }]

/-- The read-batch size handed to `pd.read_csv` as `chunksize`
(src/app.py line 52): `min(5000, chunk_size // 10)`.  For `chunk_size < 10`
this is 0, and `pd.read_csv(..., chunksize=0)` raises `ValueError`
("chunksize must be an integer >= 1") inside the `try`, so the handler at
lines 105-107 returns `([], 0)` before the row loop ever runs. -/
def read_chunk_size (chunk_size : Nat) : Nat := min 5000 (chunk_size / 10)

/-- The rows handed back by the `pd.read_csv` loop at src/app.py line 66.
After `readline()` at line 62 the stream stands after the first line, so
pandas sees everything from the second line on.  Its default C engine
skips only lines that are empty in the strict sense; a whitespace-only
line is parsed as a one-field record.  The first remaining strictly
non-empty line (whitespace-only or not) becomes pandas' column header,
which `to_csv(index=False, header=False)` then omits from every chunk; the
later strictly non-empty lines come back as rows (whitespace-only ones
among them are then dropped by the `row.strip()` gate at line 72, see
`stepRow`).  When no strictly non-empty line remains, `pd.read_csv` raises
`EmptyDataError`, caught at lines 105-107; that case is `none` here.
Field re-serialisation through `read_csv`/`to_csv` is modelled as the
identity on lines (dialect parsing is a stated non-goal); the outer
`.strip()` at line 69 can trim surrounding whitespace at read-batch edges,
which no claim concerns and which drops only rows the gate drops anyway. -/
def pandasRows (lines : List String) : Option (List String) :=
  match lines.tail.filter (fun l => ! (l == "")) with
  | [] => none
  | _ :: dataRows => some dataRows

/-- Embedding of `split_csv_memory_efficient` (src/app.py lines 34-127),
with an injectable I/O failure: `failAfter = some j` means the
`pd.read_csv` iteration at line 66 raises after `j` read batches were
delivered, so control reaches the handler at lines 105-107, which returns
`([], 0)` and thereby discards every chunk assembled so far.
`failAfter = none` is the failure-free run.  When
`read_chunk_size chunk_size = 0` (any `chunk_size < 10`), the
`pd.read_csv(..., chunksize=0)` call itself raises `ValueError` and the
same handler returns `([], 0)`. -/
def splitFallible (lines : List String) (chunk_size : Nat)
    (failAfter : Option Nat) : List OutputChunk × Int :=
  let total_rows := count_csv_rows lines
  if total_rows = 0 then ([], 0)
  else
    let header := pyStrip (lines.headD "")
    if read_chunk_size chunk_size = 0 then ([], 0)
    else
      match pandasRows lines with
      | none => ([], 0)
      | some dataRows =>
        match failAfter with
        | some _ => ([], 0)
        | none =>
          let final := dataRows.foldl (stepRow chunk_size header) initState
          (flushRemainder header final, total_rows)

/-- Embedding of `split_csv_memory_efficient` in its failure-free run. -/
def split_csv_memory_efficient (lines : List String) (chunk_size : Nat) :
    List OutputChunk × Int :=
  splitFallible lines chunk_size none

/-- Loop state after the first `j` read batches (of `read_chunk_size`
rows each) of a run have been consumed, used to speak about the chunks
already assembled when a streaming failure strikes at the pull of batch
`j + 1`.  When the `pd.read_csv` call itself fails (`chunksize` 0 or
`EmptyDataError`) the row loop never runs and the state is the initial
one. -/
def streamState (lines : List String) (chunk_size : Nat) (j : Nat) :
    LoopState :=
  if read_chunk_size chunk_size = 0 then initState
  else
    match pandasRows lines with
    | none => initState
    | some dataRows =>
      (dataRows.take (j * read_chunk_size chunk_size)).foldl
        (stepRow chunk_size (pyStrip (lines.headD ""))) initState

/-- The emptiness check in `main` (src/app.py line 174):
`total_rows == 0 or len(output_files) == 0`, on the pair returned by
`split_csv_memory_efficient`. -/
def mainEmptyGuard (res : List OutputChunk × Int) : Bool :=
  res.2 == 0 || res.1.isEmpty

/-- The data rows that the streaming loop actually receives: none when the
`total_rows == 0` guard fires (src/app.py line 41), when
`pd.read_csv(..., chunksize=0)` fails (any `chunk_size < 10`), or when
pandas finds no strictly non-empty line after the first (EmptyDataError);
otherwise the rows of `pandasRows`. -/
def emittedDataRows (lines : List String) (chunk_size : Nat) : List String :=
  if count_csv_rows lines = 0 then []
  else if read_chunk_size chunk_size = 0 then []
  else
    match pandasRows lines with
    | none => []
    | some dataRows => dataRows

/-- The rows the loop retains: those received from pandas that survive the
`row.strip()` gate at src/app.py line 72 — exactly the rows that end up in
buffers and chunks. -/
def retainedDataRows (lines : List String) (chunk_size : Nat) :
    List String :=
  (emittedDataRows lines chunk_size).filter (fun r => ! isBlank r)

/-- Spec-side definition, for comparison with the code: the Header per the
spec is the first non-empty line of the input. -/
def specHeader (lines : List String) : Option String :=
  lines.find? (fun l => ! isBlank l)

/-- Spec-side definition, for comparison with the code: the DataRows per the
spec are the non-empty lines following the header. -/
def specDataRows (lines : List String) : List String :=
  (lines.filter (fun l => ! isBlank l)).tail

/-- Output filename used by `split_csv` in src/split_csv.py (line 22):
`<stem>_part<chunk_number>.csv`, with `chunk_number` starting at 1. -/
def split_csv_output_filename (base_name : String) (chunk_number : Nat) :
    String :=
  base_name ++ "_part" ++ toString chunk_number ++ ".csv"

/-- Model of the naming loop of `split_csv` in src/split_csv.py
(lines 19-28): pandas yields the file in order as `num_chunks` chunks and
the k-th chunk (1-based) is written to `split_csv_output_filename stem k`. -/
def split_csv_filenames (base_name : String) (num_chunks : Nat) :
    List String :=
  (List.range num_chunks).map (fun i => split_csv_output_filename base_name (i + 1))

/-- An abstract text encoding: a name together with a decode probe on a byte
sample; `decodesOk sample` holds when the sample decodes without error. -/
structure Encoding where
  name : String
  decodesOk : List Nat → Bool

/-- Modelled from the spec: the Encoding Resolver is absent from src/
(src/app.py line 66 decodes with pandas' fixed default).  Per the spec it
tries the candidates in priority order — a Unicode encoding first, then
single-byte fallbacks — and returns the first whose decode of the sample
succeeds; when every candidate fails it returns the default fallback
encoding, which substitutes or drops undecodable bytes rather than fail. -/
def resolve_encoding (candidates : List Encoding) (fallback : Encoding)
    (sample : List Nat) : Encoding :=
  match candidates.find? (fun e => e.decodesOk sample) with
  | some e => e
  | none => fallback

/-- The invariant maintained by the row loop of
`split_csv_memory_efficient`: the size counter tracks the buffer, the
buffer stays below capacity, file numbering is dense, the processed-rows
counter accounts for full chunks plus the buffer, every emitted chunk is
full, carries its own rows, replicates the header, holds no blank row, and
the filenames are `split_1.csv`, `split_2.csv`, ... in order. -/
structure Inv (C : Nat) (header : String) (st : LoopState) : Prop where
  size_eq : st.current_output_size = st.current_output_buffer.length
  size_lt : st.current_output_size < C
  fileno : st.output_file_number = st.output_chunks.length + 1
  processed : st.rows_processed
      = C * st.output_chunks.length + st.current_output_size
  sum_rc : (st.output_chunks.map OutputChunk.row_count).sum
      + st.current_output_size = st.rows_processed
  rc_full : ∀ c ∈ st.output_chunks, c.row_count = C
  rows_len : ∀ c ∈ st.output_chunks, c.rows.length = c.row_count
  content_eq : ∀ c ∈ st.output_chunks, c.content = chunkContent header c.rows
  rows_nonblank : ∀ c ∈ st.output_chunks, ∀ r ∈ c.rows, isBlank r = false
  buffer_nonblank : ∀ r ∈ st.current_output_buffer, isBlank r = false
  filenames : st.output_chunks.map OutputChunk.filename
      = (List.range st.output_chunks.length).map (fun i => chunkFilename (i + 1))

-- Sanity checks of the embedding on the spec's concrete scenario
-- (header plus five rows at capacity 2) and on small corner cases.
example : isBlank "  " = true := by decide
example : isBlank " x " = false := by decide
example : count_csv_rows [] = -1 := by decide
example : count_csv_rows ["a"] = 0 := by decide
example : read_chunk_size 49999 = 4999 := by decide
example : read_chunk_size 9 = 0 := by decide
example : split_csv_memory_efficient ["h", "r1", "r2"] 2 = ([], 0) := by
  decide

lemma inv_init (C : Nat) (header : String) (hC : 0 < C) :
    Inv C header initState := by
  constructor <;> simp [initState, hC]

lemma inv_step (C : Nat) (hdr : String) (st : LoopState) (row : String)
    (hC : 0 < C) (h : Inv C hdr st) : Inv C hdr (stepRow C hdr st row) := by
  cases hb : isBlank row with
  | true => simpa [stepRow, hb] using h
  | false =>
    by_cases hs : C ≤ st.current_output_size + 1
    · have hsize : st.current_output_size + 1 = C := by
        have := h.size_lt
        omega
      simp only [stepRow, hb, Bool.false_eq_true, if_false, hs, if_true]
      constructor
      · simp
      · simpa using hC
      · simp [h.fileno]
      · have := h.processed
        have hmul : C * (st.output_chunks.length + 1)
            = C * st.output_chunks.length + C := by ring
        dsimp only
        simp only [List.length_append, List.length_singleton]
        omega
      · have := h.sum_rc
        dsimp only
        simp only [List.map_append, List.map_cons, List.map_nil,
          List.sum_append, List.sum_cons, List.sum_nil]
        omega
      · intro c hc
        rcases List.mem_append.mp hc with hmem | hmem
        · exact h.rc_full c hmem
        · rcases List.mem_singleton.mp hmem with rfl
          simpa using hsize
      · intro c hc
        rcases List.mem_append.mp hc with hmem | hmem
        · exact h.rows_len c hmem
        · rcases List.mem_singleton.mp hmem with rfl
          simp [h.size_eq]
      · intro c hc
        rcases List.mem_append.mp hc with hmem | hmem
        · exact h.content_eq c hmem
        · rcases List.mem_singleton.mp hmem with rfl
          rfl
      · intro c hc
        rcases List.mem_append.mp hc with hmem | hmem
        · exact h.rows_nonblank c hmem
        · rcases List.mem_singleton.mp hmem with rfl
          intro r hr
          rcases List.mem_append.mp hr with hrm | hrm
          · exact h.buffer_nonblank r hrm
          · rcases List.mem_singleton.mp hrm with rfl
            exact hb
      · intro r hr
        simp at hr
      · simp only [List.map_append, List.map_cons, List.map_nil,
          List.length_append, List.length_cons, List.length_nil,
          h.filenames, h.fileno]
        rw [List.range_succ]
        simp
    · simp only [stepRow, hb, Bool.false_eq_true, if_false, hs]
      constructor
      · simp [h.size_eq]
      · dsimp only
        omega
      · exact h.fileno
      · have := h.processed
        dsimp only
        omega
      · have := h.sum_rc
        dsimp only
        omega
      · exact h.rc_full
      · exact h.rows_len
      · exact h.content_eq
      · exact h.rows_nonblank
      · intro r hr
        rcases List.mem_append.mp hr with hrm | hrm
        · exact h.buffer_nonblank r hrm
        · rcases List.mem_singleton.mp hrm with rfl
          exact hb
      · exact h.filenames

lemma inv_foldl (C : Nat) (hdr : String) (rows : List String)
    (st : LoopState) (hC : 0 < C) (h : Inv C hdr st) :
    Inv C hdr (rows.foldl (stepRow C hdr) st) := by
  induction rows generalizing st with
  | nil => simpa using h
  | cons r rs ih =>
    rw [List.foldl_cons]
    exact ih _ (inv_step C hdr st r hC h)

lemma stepRow_processed (C : Nat) (hdr : String) (st : LoopState)
    (row : String) :
    (stepRow C hdr st row).rows_processed
      = st.rows_processed + (if isBlank row then 0 else 1) := by
  cases hb : isBlank row with
  | true => simp [stepRow, hb]
  | false =>
    by_cases hs : C ≤ st.current_output_size + 1 <;>
      simp [stepRow, hb, hs]

lemma foldl_processed (C : Nat) (hdr : String) (rows : List String)
    (st : LoopState) :
    (rows.foldl (stepRow C hdr) st).rows_processed
      = st.rows_processed + (rows.filter (fun r => ! isBlank r)).length := by
  induction rows generalizing st with
  | nil => simp
  | cons r rs ih =>
    rw [List.foldl_cons, ih, stepRow_processed]
    cases hb : isBlank r
    · simp [List.filter_cons, hb]
      omega
    · simp [List.filter_cons, hb]

lemma pandasRows_eq_some (lines : List String) (d : List String)
    (h : pandasRows lines = some d) :
    ∃ hd, lines.tail.filter (fun l => ! (l == "")) = hd :: d := by
  unfold pandasRows at h
  cases hfl : lines.tail.filter (fun l => ! (l == "")) with
  | nil => rw [hfl] at h; simp at h
  | cons a t =>
    rw [hfl] at h
    simp at h
    exact ⟨a, by rw [h]⟩

lemma split_fst_eq (lines : List String) (C : Nat) :
    (split_csv_memory_efficient lines C).1
      = flushRemainder (pyStrip (lines.headD ""))
          ((emittedDataRows lines C).foldl
            (stepRow C (pyStrip (lines.headD ""))) initState) := by
  unfold split_csv_memory_efficient splitFallible emittedDataRows
  by_cases h0 : count_csv_rows lines = 0
  · simp [h0, flushRemainder, initState]
  · rw [if_neg h0, if_neg h0]
    by_cases hr : read_chunk_size C = 0
    · simp [hr, flushRemainder, initState]
    · rw [if_neg hr, if_neg hr]
      cases hp : pandasRows lines with
      | none => simp [flushRemainder, initState]
      | some d => simp

lemma final_inv (lines : List String) (C : Nat) (hC : 0 < C) :
    Inv C (pyStrip (lines.headD ""))
      ((emittedDataRows lines C).foldl
        (stepRow C (pyStrip (lines.headD ""))) initState) :=
  inv_foldl C _ _ initState hC (inv_init C _ hC)

lemma final_processed (lines : List String) (C : Nat) :
    ((emittedDataRows lines C).foldl
      (stepRow C (pyStrip (lines.headD ""))) initState).rows_processed
      = (retainedDataRows lines C).length := by
  rw [foldl_processed]
  simp [initState, retainedDataRows]

lemma ceil_div_eq (R C : Nat) (hC : 0 < C) :
    (R + C - 1) / C = R / C + (if R % C = 0 then 0 else 1) := by
  have hdm := Nat.div_add_mod R C
  have hlt : R % C < C := Nat.mod_lt _ hC
  by_cases h0 : R % C = 0
  · have h1 : R + C - 1 = C * (R / C) + (C - 1) := by omega
    rw [h1, Nat.mul_add_div hC,
      Nat.div_eq_of_lt (show C - 1 < C by omega)]
    simp [h0]
  · have hmul : C * (R / C + 1) = C * (R / C) + C := by ring
    have h1 : R + C - 1 = C * (R / C + 1) + (R % C - 1) := by omega
    rw [h1, Nat.mul_add_div hC,
      Nat.div_eq_of_lt (show R % C - 1 < C by omega)]
    simp [h0]

lemma inv_div (C : Nat) (hdr : String) (st : LoopState) (hC : 0 < C)
    (h : Inv C hdr st) :
    st.rows_processed / C = st.output_chunks.length ∧
    st.rows_processed % C = st.current_output_size := by
  constructor
  · rw [h.processed, Nat.mul_add_div hC, Nat.div_eq_of_lt h.size_lt,
      Nat.add_zero]
  · rw [h.processed, Nat.mul_add_mod, Nat.mod_eq_of_lt h.size_lt]

lemma flush_length (hdr : String) (st : LoopState) (C : Nat) (hC : 0 < C)
    (h : Inv C hdr st) :
    (flushRemainder hdr st).length = (st.rows_processed + C - 1) / C := by
  obtain ⟨hdiv, hmod⟩ := inv_div C hdr st hC h
  rw [ceil_div_eq _ _ hC, hdiv, hmod]
  unfold flushRemainder
  by_cases hb : st.current_output_buffer.isEmpty
  · have h0 : st.current_output_size = 0 := by
      rw [h.size_eq]
      simpa [List.isEmpty_iff] using hb
    simp [hb, h0]
  · have h0 : st.current_output_size ≠ 0 := by
      rw [h.size_eq]
      simpa [List.isEmpty_iff, List.length_eq_zero] using hb
    simp [hb, h0]

lemma flush_sum (hdr : String) (st : LoopState) (C : Nat)
    (h : Inv C hdr st) :
    ((flushRemainder hdr st).map OutputChunk.row_count).sum
      = st.rows_processed := by
  have hs := h.sum_rc
  unfold flushRemainder
  by_cases hb : st.current_output_buffer.isEmpty
  · have h0 : st.current_output_size = 0 := by
      rw [h.size_eq]
      simpa [List.isEmpty_iff] using hb
    rw [if_pos hb]
    omega
  · rw [if_neg hb]
    simp only [List.map_append, List.map_cons, List.map_nil,
      List.sum_append, List.sum_cons, List.sum_nil]
    omega

lemma flush_mem (hdr : String) (st : LoopState) (c : OutputChunk)
    (h : c ∈ flushRemainder hdr st) :
    c ∈ st.output_chunks ∨
      (c.row_count = st.current_output_size ∧
       c.rows = st.current_output_buffer ∧
       c.content = chunkContent hdr st.current_output_buffer ∧
       st.current_output_buffer ≠ []) := by
  unfold flushRemainder at h
  by_cases hb : st.current_output_buffer.isEmpty
  · rw [if_pos hb] at h
    exact Or.inl h
  · rw [if_neg hb] at h
    rcases List.mem_append.mp h with hm | hm
    · exact Or.inl hm
    · rcases List.mem_singleton.mp hm with rfl
      right
      refine ⟨rfl, rfl, rfl, ?_⟩
      simpa [List.isEmpty_iff] using hb

lemma flush_dropLast (hdr : String) (st : LoopState) (C : Nat)
    (h : Inv C hdr st) :
    ∀ c ∈ (flushRemainder hdr st).dropLast, c.row_count = C := by
  intro c hc
  unfold flushRemainder at hc
  by_cases hb : st.current_output_buffer.isEmpty
  · rw [if_pos hb] at hc
    exact h.rc_full c ((List.dropLast_sublist _).subset hc)
  · rw [if_neg hb, List.dropLast_concat] at hc
    exact h.rc_full c hc

lemma flush_getLast (hdr : String) (st : LoopState) (C : Nat) (hC : 0 < C)
    (h : Inv C hdr st) :
    ∀ c, (flushRemainder hdr st).getLast? = some c →
      1 ≤ c.row_count ∧ c.row_count ≤ C := by
  intro c hc
  unfold flushRemainder at hc
  by_cases hb : st.current_output_buffer.isEmpty
  · rw [if_pos hb] at hc
    have hm := List.mem_of_getLast?_eq_some hc
    rw [h.rc_full c hm]
    exact ⟨hC, le_refl C⟩
  · rw [if_neg hb, List.getLast?_concat] at hc
    have hc2 := Option.some.inj hc
    subst hc2
    have hpos : st.current_output_buffer.length ≠ 0 := by
      simpa [List.isEmpty_iff, List.length_eq_zero] using hb
    have hsz := h.size_eq
    have hlt := h.size_lt
    constructor
    · simp only
      omega
    · simp only
      omega

lemma flush_filenames (hdr : String) (st : LoopState) (C : Nat)
    (h : Inv C hdr st) :
    (flushRemainder hdr st).map OutputChunk.filename
      = (List.range (flushRemainder hdr st).length).map
          (fun i => chunkFilename (i + 1)) := by
  unfold flushRemainder
  by_cases hb : st.current_output_buffer.isEmpty
  · rw [if_pos hb]
    exact h.filenames
  · rw [if_neg hb]
    simp only [List.map_append, List.map_cons, List.map_nil,
      List.length_append, List.length_cons, List.length_nil]
    rw [h.filenames, h.fileno, List.range_succ]
    simp

/-- Claim C1 (code bug witnessed at a concrete input): on the file with
header `a,b,c` and data rows `r1`, `r2` at the default capacity 49999,
the split loses `r1`: after `readline()` already consumed the real header,
`pd.read_csv` consumes `r1` as its column header and `to_csv(header=False)`
drops it, so the single emitted chunk holds `r2` alone while the spec's
data rows are `r1, r2` — the round-trip law fails. -/
theorem first_data_row_lost :
    split_csv_memory_efficient ["a,b,c", "r1", "r2"] 49999 =
      ([{ content := "a,b,c\nr2", filename := "split_1.csv",
          row_count := 1, rows := ["r2"] }], 2) ∧
    specDataRows ["a,b,c", "r1", "r2"] = ["r1", "r2"] ∧
    (((split_csv_memory_efficient ["a,b,c", "r1", "r2"] 49999).1).map
        OutputChunk.rows).flatten = ["r2"] := by
  refine ⟨by decide, by decide, by decide⟩

/-- Claim C2 counterexample: on `["h", "r1", "", "r2"]` the counting pass
returns 3, counting the blank line, where the claim demands 2 (the lines
left after trimming and discarding empty lines, minus one for the
header). -/
theorem count_includes_blank_lines :
    count_csv_rows ["h", "r1", "", "r2"] = 3 ∧
    ¬ count_csv_rows ["h", "r1", "", "r2"] = 2 := by
  refine ⟨by decide, by decide⟩

/-- Claim C2 (amended): lines that are blank after trimming never occupy a
row slot in any emitted chunk, but the counting pass does NOT exclude
them — it returns the total number of lines, blank ones included, minus
one. -/
theorem blank_rows_never_in_chunks (lines : List String) (C : Nat)
    (hC : 0 < C) :
    count_csv_rows lines = (lines.length : Int) - 1 ∧
    ∀ c ∈ (split_csv_memory_efficient lines C).1, ∀ r ∈ c.rows,
      pyStrip r ≠ "" := by
  refine ⟨rfl, ?_⟩
  intro c hc r hr
  rw [split_fst_eq] at hc
  have hinv := final_inv lines C hC
  have hnb : isBlank r = false := by
    rcases flush_mem _ _ c hc with hm | ⟨_, hrows, _, _⟩
    · exact hinv.rows_nonblank c hm r hr
    · rw [hrows] at hr
      exact hinv.buffer_nonblank r hr
  intro heq
  unfold isBlank at hnb
  rw [heq] at hnb
  simp at hnb

/-- Witness for the amended C2 at a concrete input with interspersed blank
and whitespace-only lines, at a capacity large enough for the streaming
loop to run (the whitespace-only row streams through pandas and is dropped
by the gate). -/
theorem blank_rows_never_in_chunks_witness :
    0 < 10 ∧
    (count_csv_rows ["h,h", "x", "", "r1", " ", "r2", "r3"]
        = ((["h,h", "x", "", "r1", " ", "r2", "r3"] : List String).length : Int)
            - 1 ∧
     ∀ c ∈ (split_csv_memory_efficient
        ["h,h", "x", "", "r1", " ", "r2", "r3"] 10).1, ∀ r ∈ c.rows,
       pyStrip r ≠ "") :=
  ⟨by decide,
   blank_rows_never_in_chunks ["h,h", "x", "", "r1", " ", "r2", "r3"] 10
     (by decide)⟩

/-- Claim C3 counterexample: `["h", "r1", ..., "r11"]` has R = 11
non-empty data rows and the counting pass reports total_rows = 11, so the
claim demands ceil(11/10) = 2 chunks at capacity 10 with row counts
summing to 11; the code emits a single chunk whose row counts sum to 10
(the first data row was consumed as the pandas column header). -/
theorem chunk_count_and_sum_cex :
    (split_csv_memory_efficient
        ["h", "r1", "r2", "r3", "r4", "r5", "r6", "r7", "r8", "r9", "r10",
         "r11"] 10).2 = 11 ∧
    ((split_csv_memory_efficient
        ["h", "r1", "r2", "r3", "r4", "r5", "r6", "r7", "r8", "r9", "r10",
         "r11"] 10).1).length = 1 ∧
    ¬ (((split_csv_memory_efficient
          ["h", "r1", "r2", "r3", "r4", "r5", "r6", "r7", "r8", "r9", "r10",
           "r11"] 10).1).length = (11 + 10 - 1) / 10 ∧
       (((split_csv_memory_efficient
          ["h", "r1", "r2", "r3", "r4", "r5", "r6", "r7", "r8", "r9", "r10",
           "r11"] 10).1).map OutputChunk.row_count).sum = 11) := by
  refine ⟨by decide, by decide, by decide⟩

/-- Claim C3 (amended): with Rn the number of data rows the streaming loop
retains (`retainedDataRows`: the strictly non-empty lines after the first
line, minus the one consumed as the pandas header, that survive the
`row.strip()` gate; zero when the emptiness guard fires, when
`chunk_size < 10` makes `pd.read_csv(chunksize=0)` fail, or when the
EmptyDataError path fires), the split emits exactly ceil(Rn / C) chunks
and their `row_count` values sum exactly to Rn — which in general differs
from the `total_rows` of the counting pass. -/
theorem chunk_count_and_sum (lines : List String) (C : Nat) (hC : 0 < C) :
    ((split_csv_memory_efficient lines C).1).length
      = ((retainedDataRows lines C).length + C - 1) / C ∧
    (((split_csv_memory_efficient lines C).1).map OutputChunk.row_count).sum
      = (retainedDataRows lines C).length := by
  rw [split_fst_eq]
  have hinv := final_inv lines C hC
  have hproc := final_processed lines C
  constructor
  · rw [flush_length _ _ C hC hinv, hproc]
  · rw [flush_sum _ _ C hinv, hproc]

/-- Witness for the amended C3: thirteen lines give eleven retained data
rows at capacity 10, hence ceil(11/10) = 2 chunks whose row counts sum to
11. -/
theorem chunk_count_and_sum_witness :
    0 < 10 ∧
    (((split_csv_memory_efficient
        ["h,h", "x", "r1", "r2", "r3", "r4", "r5", "r6", "r7", "r8", "r9",
         "r10", "r11"] 10).1).length
        = ((retainedDataRows
            ["h,h", "x", "r1", "r2", "r3", "r4", "r5", "r6", "r7", "r8",
             "r9", "r10", "r11"] 10).length + 10 - 1) / 10 ∧
     (((split_csv_memory_efficient
        ["h,h", "x", "r1", "r2", "r3", "r4", "r5", "r6", "r7", "r8", "r9",
         "r10", "r11"] 10).1).map OutputChunk.row_count).sum
        = (retainedDataRows
            ["h,h", "x", "r1", "r2", "r3", "r4", "r5", "r6", "r7", "r8",
             "r9", "r10", "r11"] 10).length) :=
  ⟨by decide,
   chunk_count_and_sum
     ["h,h", "x", "r1", "r2", "r3", "r4", "r5", "r6", "r7", "r8", "r9",
      "r10", "r11"] 10 (by decide)⟩

/-- Claim C4: with the capacity positive (a spec invariant), every emitted
chunk has `row_count ≤ C`, every chunk except the last has `row_count = C`
exactly, and the last chunk's `row_count` lies in `[1, C]`. -/
theorem chunk_row_count_bounds (lines : List String) (C : Nat) (hC : 0 < C) :
    (∀ c ∈ (split_csv_memory_efficient lines C).1, c.row_count ≤ C) ∧
    (∀ c ∈ ((split_csv_memory_efficient lines C).1).dropLast,
      c.row_count = C) ∧
    (∀ c, ((split_csv_memory_efficient lines C).1).getLast? = some c →
      1 ≤ c.row_count ∧ c.row_count ≤ C) := by
  rw [split_fst_eq]
  have hinv := final_inv lines C hC
  refine ⟨?_, ?_, ?_⟩
  · intro c hc
    rcases flush_mem _ _ c hc with hm | ⟨hrc, _, _, _⟩
    · exact le_of_eq (hinv.rc_full c hm)
    · rw [hrc]
      exact le_of_lt hinv.size_lt
  · exact flush_dropLast _ _ C hinv
  · exact flush_getLast _ _ C hC hinv

/-- Witness for C4: eleven streamed data rows at capacity 10 give a full
chunk of 10 followed by a last chunk of 1. -/
theorem chunk_row_count_bounds_witness :
    0 < 10 ∧
    ((∀ c ∈ (split_csv_memory_efficient
        ["h,h", "x", "r1", "r2", "r3", "r4", "r5", "r6", "r7", "r8", "r9",
         "r10", "r11"] 10).1, c.row_count ≤ 10) ∧
     (∀ c ∈ ((split_csv_memory_efficient
        ["h,h", "x", "r1", "r2", "r3", "r4", "r5", "r6", "r7", "r8", "r9",
         "r10", "r11"] 10).1).dropLast, c.row_count = 10) ∧
     (∀ c, ((split_csv_memory_efficient
        ["h,h", "x", "r1", "r2", "r3", "r4", "r5", "r6", "r7", "r8", "r9",
         "r10", "r11"] 10).1).getLast? = some c →
        1 ≤ c.row_count ∧ c.row_count ≤ 10)) :=
  ⟨by decide,
   chunk_row_count_bounds
     ["h,h", "x", "r1", "r2", "r3", "r4", "r5", "r6", "r7", "r8", "r9",
      "r10", "r11"] 10 (by decide)⟩

/-- Claim C5 counterexample: `[" ", " ", "h"]` has zero non-empty data
rows in the spec's trimmed sense (`specDataRows` is empty), yet the code
emits one chunk and `main`'s emptiness check does not fire: `readline()`
takes the first whitespace line as the (stripped, empty) header, pandas'
C engine does not skip the second whitespace-only line and consumes it as
its column header, and `h` then streams as a data row. -/
theorem whitespace_line_defeats_empty_guard :
    specDataRows [" ", " ", "h"] = [] ∧
    (split_csv_memory_efficient [" ", " ", "h"] 49999).1 =
      [{ content := "\nh", filename := "split_1.csv",
         row_count := 1, rows := ["h"] }] ∧
    mainEmptyGuard (split_csv_memory_efficient [" ", " ", "h"] 49999)
        = false := by
  refine ⟨by decide, by decide, by decide⟩

lemma emittedDataRows_nil_of_strict_few (lines : List String) (C : Nat)
    (h : (lines.filter (fun l => ! (l == ""))).length ≤ 1) :
    emittedDataRows lines C = [] := by
  unfold emittedDataRows
  by_cases h0 : count_csv_rows lines = 0
  · simp [h0]
  · rw [if_neg h0]
    by_cases hr : read_chunk_size C = 0
    · simp [hr]
    · rw [if_neg hr]
      cases hp : pandasRows lines with
      | none => rfl
      | some d =>
        obtain ⟨hd, hfl⟩ := pandasRows_eq_some lines d hp
        cases lines with
        | nil => simp at hfl
        | cons a t =>
          have hlen : (t.filter (fun l => ! (l == ""))).length
              = d.length + 1 := by
            simp only [List.tail_cons] at hfl
            rw [hfl]
            simp
          have hle : (t.filter (fun l => ! (l == ""))).length
              ≤ ((a :: t).filter (fun l => ! (l == ""))).length := by
            rw [List.filter_cons]
            by_cases ha : a = "" <;> simp [ha]
          have : d.length = 0 := by omega
          simp [List.length_eq_zero.mp this]

/-- Claim C5 (amended): for every input in which at most one line is
non-empty in the strict sense — every other line is exactly `""`, not
merely whitespace — the split emits zero chunks (the Sink receives no
`emit` calls) and the emptiness check in `main` reports the failure, the
code's realization of `EmptyInputError`.  A whitespace-only line, by
contrast, can be consumed by pandas as its parse header and let a later
lone non-empty line stream as a data row, defeating the guard. -/
theorem strictly_empty_input_no_chunks (lines : List String) (C : Nat)
    (h : (lines.filter (fun l => ! (l == ""))).length ≤ 1) :
    (split_csv_memory_efficient lines C).1 = [] ∧
    mainEmptyGuard (split_csv_memory_efficient lines C) = true := by
  have hnil := emittedDataRows_nil_of_strict_few lines C h
  have h1 : (split_csv_memory_efficient lines C).1 = [] := by
    rw [split_fst_eq, hnil]
    rfl
  refine ⟨h1, ?_⟩
  unfold mainEmptyGuard
  rw [h1]
  simp

/-- Witness for the amended C5: a header followed by strictly empty lines
produces no chunks and trips the error in `main`. -/
theorem strictly_empty_input_no_chunks_witness :
    ((["h", "", ""] : List String).filter (fun l => ! (l == ""))).length
        ≤ 1 ∧
    ((split_csv_memory_efficient ["h", "", ""] 49999).1 = [] ∧
     mainEmptyGuard (split_csv_memory_efficient ["h", "", ""] 49999)
        = true) :=
  ⟨by decide, strictly_empty_input_no_chunks ["h", "", ""] 49999 (by decide)⟩

/-- Claim C6 counterexample: at capacity 10 the read batches hold
`read_chunk_size 10 = 1` row each; on a header, a pandas-consumed line and
twenty data rows, one full chunk is already assembled and five rows sit in
the in-progress buffer when an I/O failure strikes at the pull of read
batch 16, yet the function returns `([], 0)`: the chunk emitted before the
failure is discarded rather than remaining delivered. -/
theorem prior_chunks_discarded_on_failure :
    (streamState
      ["h", "x", "r1", "r2", "r3", "r4", "r5", "r6", "r7", "r8", "r9",
       "r10", "r11", "r12", "r13", "r14", "r15", "r16", "r17", "r18",
       "r19", "r20"] 10 15).output_chunks.length = 1 ∧
    (streamState
      ["h", "x", "r1", "r2", "r3", "r4", "r5", "r6", "r7", "r8", "r9",
       "r10", "r11", "r12", "r13", "r14", "r15", "r16", "r17", "r18",
       "r19", "r20"] 10 15).current_output_buffer.length = 5 ∧
    splitFallible
      ["h", "x", "r1", "r2", "r3", "r4", "r5", "r6", "r7", "r8", "r9",
       "r10", "r11", "r12", "r13", "r14", "r15", "r16", "r17", "r18",
       "r19", "r20"] 10 (some 15) = ([], 0) := by
  refine ⟨by decide, by decide, by decide⟩

/-- Claim C6 (amended): any I/O failure during the streaming phase lands in
the handler that returns `([], 0)`: no chunk at all is delivered — every
chunk assembled before the failure is discarded along with the in-progress
partial chunk. -/
theorem streaming_failure_returns_nothing (lines : List String)
    (C j : Nat) :
    splitFallible lines C (some j) = ([], 0) := by
  unfold splitFallible
  by_cases h0 : count_csv_rows lines = 0
  · simp [h0]
  · rw [if_neg h0]
    by_cases hr : read_chunk_size C = 0
    · simp [hr]
    · rw [if_neg hr]
      cases hp : pandasRows lines <;> simp

/-- Claim C7 counterexample: for the input whose first line is `"  h  "`
(the first non-empty line of the input), the chunk emitted at the default
capacity 49999 has content starting with the stripped string `h`, not with
the verbatim header `"  h  "`: the claimed content differs from the actual
one. -/
theorem header_not_replicated_verbatim :
    specHeader ["  h  ", "x", "r1"] = some "  h  " ∧
    ((split_csv_memory_efficient ["  h  ", "x", "r1"] 49999).1).map
        OutputChunk.content = ["h\nr1"] ∧
    ¬ ("h\nr1" = "  h  " ++ "\n" ++ "r1") := by
  refine ⟨by decide, by decide, by decide⟩

/-- Claim C7 (amended): the header the code captures is the FIRST line of
the input (blank or not), stripped of surrounding whitespace — not the
first non-empty line verbatim — and every emitted chunk's content is
exactly this stripped header, a newline, then the chunk's rows joined by
newlines. -/
theorem header_is_stripped_first_line (lines : List String) (C : Nat)
    (hC : 0 < C) :
    ∀ c ∈ (split_csv_memory_efficient lines C).1,
      c.content = pyStrip (lines.headD "") ++ "\n"
        ++ String.intercalate "\n" c.rows := by
  intro c hc
  rw [split_fst_eq] at hc
  have hinv := final_inv lines C hC
  rcases flush_mem _ _ c hc with hm | ⟨_, hrows, hcontent, _⟩
  · exact hinv.content_eq c hm
  · rw [hcontent, hrows]
    rfl

/-- Witness for the amended C7 at a concrete input with a padded first
line, at a capacity large enough for the streaming loop to run. -/
theorem header_is_stripped_first_line_witness :
    0 < 10 ∧
    ∀ c ∈ (split_csv_memory_efficient [" h,h ", "x", "r1", "r2", "r3"] 10).1,
      c.content = pyStrip (([" h,h ", "x", "r1", "r2", "r3"]
          : List String).headD "") ++ "\n"
        ++ String.intercalate "\n" c.rows :=
  ⟨by decide,
   header_is_stripped_first_line [" h,h ", "x", "r1", "r2", "r3"] 10
     (by decide)⟩

/-- Claim C8 (modelled from the spec — the Encoding Resolver is not part of
src/): resolution tries the candidates in priority order and returns the
first whose decode of the sample succeeds, skipping any failing prefix;
when every candidate fails it returns the default fallback encoding. -/
theorem resolve_encoding_first_success (eTried eRest : List Encoding)
    (e fb : Encoding) (sample : List Nat)
    (hTried : ∀ c ∈ eTried, c.decodesOk sample = false)
    (he : e.decodesOk sample = true) :
    resolve_encoding (eTried ++ e :: eRest) fb sample = e ∧
    resolve_encoding eTried fb sample = fb := by
  have hfind : eTried.find? (fun c => c.decodesOk sample) = none :=
    List.find?_eq_none.mpr (fun c hcmem => by simp [hTried c hcmem])
  have hcons : (eTried ++ e :: eRest).find?
      (fun c => c.decodesOk sample) = some e := by
    rw [List.find?_append, hfind]
    simp [he]
  constructor
  · unfold resolve_encoding
    rw [hcons]
  · unfold resolve_encoding
    rw [hfind]

/-- A strict UTF-8-like probe: accepts only samples of 7-bit bytes. -/
def utf8Candidate : Encoding :=
  { name := "utf-8", decodesOk := fun sample => sample.all (fun b => b < 128) }

/-- A single-byte fallback that accepts any byte. -/
def latin1Candidate : Encoding :=
  { name := "latin-1", decodesOk := fun _ => true }

/-- The default fallback encoding of the resolver. -/
def defaultFallback : Encoding :=
  { name := "cp1252", decodesOk := fun _ => true }

/-- Witness for C8: on the sample `[200]` the Unicode probe fails and the
single-byte fallback is the first success; with only failing candidates
the default fallback is returned. -/
theorem resolve_encoding_first_success_witness :
    resolve_encoding ([utf8Candidate] ++ latin1Candidate :: [])
        defaultFallback [200] = latin1Candidate ∧
    resolve_encoding [utf8Candidate] defaultFallback [200]
        = defaultFallback :=
  resolve_encoding_first_success [utf8Candidate] [] latin1Candidate
    defaultFallback [200]
    (fun c hc => by
      rcases List.mem_singleton.mp hc with rfl
      decide)
    (by decide)

/-- Claim C9 counterexample: src/split_csv.py names its first output file
`data_part1.csv` for input stem `data`, which is not the claimed
`split_1.csv`. -/
theorem split_csv_py_naming_differs :
    split_csv_output_filename "data" 1 = "data_part1.csv" ∧
    ¬ split_csv_output_filename "data" 1 = chunkFilename 1 := by
  refine ⟨by decide, by decide⟩

/-- Claim C9 (amended): chunk numbering is contiguous from 1 in input order
in both scripts, but the filename patterns differ: the app.py engine names
the i-th chunk `split_<i>.csv`, while split_csv.py names its i-th output
`<stem>_part<i>.csv`. -/
theorem chunk_filenames_sequential (lines : List String) (C : Nat)
    (hC : 0 < C) :
    ((split_csv_memory_efficient lines C).1).map OutputChunk.filename
      = (List.range ((split_csv_memory_efficient lines C).1).length).map
          (fun i => chunkFilename (i + 1)) ∧
    ∀ base n, split_csv_filenames base n
      = (List.range n).map (fun i => split_csv_output_filename base (i + 1)) := by
  constructor
  · rw [split_fst_eq]
    exact flush_filenames _ _ C (final_inv lines C hC)
  · intro base n
    rfl

/-- Witness for the amended C9: at capacity 10 with eleven streamed rows,
two chunks are named `split_1.csv` and `split_2.csv` in order;
split_csv.py would name them `data_part1.csv`, `data_part2.csv`. -/
theorem chunk_filenames_sequential_witness :
    0 < 10 ∧
    (((split_csv_memory_efficient
        ["h,h", "x", "r1", "r2", "r3", "r4", "r5", "r6", "r7", "r8", "r9",
         "r10", "r11"] 10).1).map OutputChunk.filename
      = (List.range ((split_csv_memory_efficient
          ["h,h", "x", "r1", "r2", "r3", "r4", "r5", "r6", "r7", "r8",
           "r9", "r10", "r11"] 10).1).length).map
          (fun i => chunkFilename (i + 1)) ∧
     ∀ base n, split_csv_filenames base n
      = (List.range n).map (fun i => split_csv_output_filename base (i + 1))) :=
  ⟨by decide,
   chunk_filenames_sequential
     ["h,h", "x", "r1", "r2", "r3", "r4", "r5", "r6", "r7", "r8", "r9",
      "r10", "r11"] 10 (by decide)⟩

/-- Claim C10: `count_csv_rows` returns the number of lines minus one,
counting blank lines too; on an input with zero lines it returns -1; and
the emptiness guard of `split_csv_memory_efficient`, which tests
`total_rows == 0`, holds exactly when the input has exactly one line. -/
theorem count_counts_all_lines (lines : List String) :
    count_csv_rows lines = (lines.length : Int) - 1 ∧
    count_csv_rows [] = -1 ∧
    (count_csv_rows lines = 0 ↔ lines.length = 1) := by
  refine ⟨rfl, by decide, ?_⟩
  unfold count_csv_rows
  omega

end CSVSplitter
